import Mathlib

/-!
Verification development for the ESP8266 WiFi Mini irrigation controller
(`ESP8266-WiFi-Mini-Irrigation.ino`).  The sketch's data model and the pure
content of its functions are embedded as Lean definitions over `Int` (the
C `int` fields never approach overflow in the checked claims) and `List Char`
(Arduino `String`), and the claimed properties are settled as theorems.
-/

namespace IrrigationCore

/-! ## Arduino `String` primitives

Arduino strings are modelled as `List Char`.  `firstIdx` is
`String::indexOf` (first index at which the needle occurs, scanning from the
front), `intIndexOf` is the `int`-returning wrapper (`-1` when absent, with
the `unsigned int fromIndex` cast semantics), `substringAU` is
`String::substring(unsigned int left, unsigned int right)`, and `trimList` is
`String::trim` (drops `isspace` characters from both ends). -/

def firstIdx : List Char → List Char → Option Nat
  | [], needle => if needle <+: ([] : List Char) then some 0 else none
  | c :: t, needle =>
      if needle <+: (c :: t) then some 0 else (firstIdx t needle).map (· + 1)

def firstIdxFrom (hay needle : List Char) (start : Nat) : Option Nat :=
  (firstIdx (hay.drop start) needle).map (· + start)

def toUnsignedNat (i : Int) : Nat := (i % 4294967296).toNat

def intIndexOf (hay needle : List Char) (fromI : Int) : Int :=
  match firstIdxFrom hay needle (toUnsignedNat fromI) with
  | some i => (i : Int)
  | none => -1

def substringAU (s : List Char) (leftI rightI : Int) : List Char :=
  let left := toUnsignedNat leftI
  let right := toUnsignedNat rightI
  let lo := if left > right then right else left
  let hi := if left > right then left else right
  if lo ≥ s.length then [] else (s.take (min hi s.length)).drop lo

def isWSCh (c : Char) : Bool :=
  c = (' ') || c = ('\t') || c = ('\n') || c = ('\x0b') || c = ('\x0c') || c = ('\r')

def trimList (cs : List Char) : List Char :=
  ((cs.dropWhile isWSCh).reverse.dropWhile isWSCh).reverse

/-- Decimal digit character, `'0'` + d. -/
def digitCh (d : Nat) : Char := Char.ofNat (48 + d)

/-- Decimal rendering of a natural number, as produced by Arduino
`String(int)` for non-negative values. -/
def natToStr (n : Nat) : List Char :=
  if n = 0 then [digitCh 0] else ((Nat.digits 10 n).reverse.map digitCh)

/-- Arduino `String(int)`: decimal rendering with a leading minus sign for
negative values. -/
def intToStr (v : Int) : List Char :=
  if v < 0 then ('-') :: natToStr (-v).toNat else natToStr v.toNat

/-- Digit-accumulating core of `String::toInt` (`atol`): consume decimal
digits from the front, stopping at the first non-digit. -/
def parseNat : List Char → Nat → Nat
  | [], acc => acc
  | c :: cs, acc => if c.isDigit then parseNat cs (acc * 10 + (c.toNat - 48)) else acc

/-- Arduino `String::toInt` for the strings this program feeds it: an
optional leading minus sign followed by decimal digits. -/
def listToInt (cs : List Char) : Int :=
  if cs.head? = some ('-') then -((parseNat (cs.drop 1) 0 : Int)) else (parseNat cs 0 : Int)

/-! ## Data model (Section: Irrigation Application Types and Globals) -/

/-- `IrrigationEvent`: irrigation window in hours.  The C fields are named
`begin`/`end`; `end` is a Lean keyword, hence the trailing underscores. -/
structure IrrigationEvent where
  begin_ : Int
  end_ : Int
deriving DecidableEq, Repr

/-- `MistEvent`: misting window in seconds. -/
structure MistEvent where
  begin_ : Int
  end_ : Int
deriving DecidableEq, Repr

/-- `Schedule`: the four operator-configurable fields. -/
structure Schedule where
  irrigationBeginHours : Int
  irrigationDurationHours : Int
  mistPeriodMinutes : Int
  mistDurationSeconds : Int
deriving DecidableEq, Repr

/-- `defaultSchedule` from the sketch. -/
def defaultSchedule : Schedule :=
  { irrigationBeginHours := 10
    irrigationDurationHours := 4
    mistPeriodMinutes := 20
    mistDurationSeconds := 5 }

/-- The `Automation` enum of the sketch. -/
inductive Automation
  | NULL_STATE
  | MANUAL_ACTIVE
  | MANUAL_INACTIVE
  | AUTO_CONFIG
  | AUTO_START
  | AUTO_RUN
deriving DecidableEq, Repr

/-- The scheduler's verdict on one tick, as observable at the relay:
`On`/`Off` when `mist(isMisting)` is called on a transition, `NoChange`
when `irrigate` returns without touching the relay. -/
inductive ValveCommand
  | On
  | Off
  | NoChange
deriving DecidableEq, Repr

/-- Wall-clock reading from the DS1307 (`rtc.now()`), restricted to the
fields `irrigate` reads. -/
structure Time where
  hour : Int
  minute : Int
  second : Int
deriving DecidableEq, Repr

/-- The scheduler's mutable globals: `waterToday`, `mistToday`,
`isPreviousMisting`. -/
structure SchedulerState where
  waterToday : IrrigationEvent
  mistToday : MistEvent
  isPreviousMisting : Bool
deriving DecidableEq, Repr

/-! ## Schedule validation (`validateIrrigationSchedule`) -/

/-- One reported violation, standing for the corresponding
`Serial.println` error message in `validateIrrigationSchedule`. -/
inductive ScheduleError
  | beginHoursRange
  | durationHoursRange
  | mistPeriodRange
  | mistDurationRange
deriving DecidableEq, Repr

/-- `validateIrrigationSchedule`: all four range checks are evaluated in
sequence; `isSuccess` starts `true` and is set to `false` by every failing
check; each failing check also prints a diagnostic (collected here as the
`ScheduleError` list, in evaluation order). -/
def validateIrrigationSchedule (s : Schedule) : Bool × List ScheduleError :=
  let ok1 := decide (0 ≤ s.irrigationBeginHours ∧ s.irrigationBeginHours < 24)
  let ok2 := decide (0 < s.irrigationDurationHours ∧
    s.irrigationBeginHours + s.irrigationDurationHours < 24)
  let irrigationDurationMinutes := s.irrigationDurationHours * 60
  let ok3 := decide (0 < s.mistPeriodMinutes ∧
    s.mistPeriodMinutes < irrigationDurationMinutes)
  let ok4 := decide (0 < s.mistDurationSeconds ∧ s.mistDurationSeconds < 60)
  (ok1 && ok2 && ok3 && ok4,
    (if ok1 then [] else [ScheduleError.beginHoursRange])
      ++ (if ok2 then [] else [ScheduleError.durationHoursRange])
      ++ (if ok3 then [] else [ScheduleError.mistPeriodRange])
      ++ (if ok4 then [] else [ScheduleError.mistDurationRange]))

/-! ## The scheduler (`initIrrigationSchedule`, `irrigate`, `mist`) -/

/-- `initIrrigationSchedule`: recompute `waterToday` from the schedule and
clear the mist-transition baseline. -/
def initIrrigationSchedule (schedule : Schedule) (st : SchedulerState) : SchedulerState :=
  { st with
      waterToday :=
        { begin_ := schedule.irrigationBeginHours
          end_ := schedule.irrigationBeginHours + schedule.irrigationDurationHours }
      isPreviousMisting := false }

/-- The tile-scan `while` loop inside `irrigate`: starting from the current
`(begin, end)` candidate tile, keep advancing both bounds by
`mistPeriodSeconds` until the current second falls inside the tile or the
tile end reaches `irrigationDurationSeconds`.  `fuel` bounds the number of
iterations; the C loop runs at most `irrigationDurationSeconds - end₀`
iterations whenever `mistPeriodSeconds > 0` (each step strictly increases
`end`), so the fuel supplied by `irrigate` is always sufficient there.  (For
`mistPeriodSeconds ≤ 0` the C loop does not terminate; no checked claim
concerns that case.) -/
def scanMist (currentSeconds mistPeriodSeconds irrigationDurationSeconds : Int) :
    Int → Int → Nat → Bool × Int × Int
  | b, e, 0 => (false, b, e)
  | b, e, fuel + 1 =>
      if e < irrigationDurationSeconds then
        if b ≤ currentSeconds ∧ currentSeconds < e then
          (true, b, e)
        else
          scanMist currentSeconds mistPeriodSeconds irrigationDurationSeconds
            (b + mistPeriodSeconds) (e + mistPeriodSeconds) fuel
      else (false, b, e)

/-- `irrigate`: one scheduler tick.  Outside the irrigation window the body
is skipped entirely.  Inside it, the tile scan restarts from
`{0, mistDurationSeconds}` and the relay is actuated (`mist(isMisting)`)
only on a transition of the misting state. -/
def irrigate (schedule : Schedule) (now : Time) (st : SchedulerState) :
    SchedulerState × ValveCommand :=
  let currentHour := now.hour
  let currentSeconds := now.second + now.minute * 60
  let isIrrigating : Bool :=
    (st.waterToday.begin_ ≤ currentHour && currentHour < st.waterToday.end_)
  if isIrrigating then
    let irrigationDurationSeconds := schedule.irrigationDurationHours * 60 * 60
    let mistPeriodSeconds := schedule.mistPeriodMinutes * 60
    let fuel := (irrigationDurationSeconds - schedule.mistDurationSeconds).toNat + 1
    match scanMist currentSeconds mistPeriodSeconds irrigationDurationSeconds
        0 schedule.mistDurationSeconds fuel with
    | (isMisting, b, e) =>
      let st' := { st with mistToday := { begin_ := b, end_ := e } }
      if st.isPreviousMisting && !isMisting || !st.isPreviousMisting && isMisting then
        ({ st' with isPreviousMisting := isMisting },
          if isMisting then ValveCommand.On else ValveCommand.Off)
      else (st', ValveCommand.NoChange)
  else (st, ValveCommand.NoChange)


/-! ## Session authentication (`isAuthenticated`, `storeSessionId`,
`retrieveSessionId`) -/

/-- `storeSessionId`: the repository is simply overwritten with the new
token (the user name is ignored). -/
def storeSessionId (webUserName sessionId : List Char) : List Char := sessionId

/-- `retrieveSessionId`: returns the stored repository value (the user name
is ignored). -/
def retrieveSessionId (webUserName repository : List Char) : List Char := repository

/-- `isAuthenticated`, as a function of the stored session id
(`retrieveSessionId(webUserName)`) and of the cookie string extracted from
the request (`extractCookie(browser)`):
`sessionId.length() > 0 && cookie.indexOf(sessionId) != -1`. -/
def isAuthenticated (sessionId cookie : List Char) : Bool :=
  decide (sessionId.length > 0) && decide (intIndexOf cookie sessionId 0 ≠ -1)

/-! ## Request parsing helpers -/

def cookieMarker : List Char := ("Cookie: ").toList

/-- `extractCookie`: read header lines until a blank one, remembering the
value of the last `Cookie: ` header seen.  The browser's header stream is
modelled as the list of `readStringUntil('\r')` chunks. -/
def extractCookie : List (List Char) → List Char → List Char
  | [], cookieValue => cookieValue
  | line :: rest, cookieValue =>
      let messagePart := trimList line
      let cookieValue' :=
        if cookieMarker <+: messagePart then
          trimList (messagePart.drop cookieMarker.length)
        else cookieValue
      if messagePart.length > 0 then extractCookie rest cookieValue' else cookieValue'

def spaceStrLit : List Char := (" ").toList

/-- `extractTarget`: the characters between the first and second space of
the request line (with Arduino `indexOf`/`substring` edge behaviour). -/
def extractTarget (request : List Char) : List Char :=
  let indexStartTarget := intIndexOf request spaceStrLit 0 + 1
  let indexEndTarget := intIndexOf request spaceStrLit indexStartTarget
  substringAU request indexStartTarget indexEndTarget

def eqLit : List Char := ("=").toList
def ampLit : List Char := ("&").toList

/-- `extractQueryValue`: value of `name=` up to the next `&` or the end of
the query collection. -/
def extractQueryValue (queryCollection propertyName : List Char) : List Char :=
  let propertyMarker := propertyName ++ eqLit
  match firstIdx queryCollection propertyMarker with
  | some propertyIndex =>
      let valueIndex := propertyIndex + propertyMarker.length
      match firstIdxFrom queryCollection ampLit valueIndex with
      | none => queryCollection.drop valueIndex
      | some lineBreakIndex => (queryCollection.take lineBreakIndex).drop valueIndex
  | none => []

def colonLit : List Char := (":").toList
def crLit : List Char := ("\r").toList

/-- `extractPropertyValue`: value of `name:` up to the next carriage return
(or the end of the collection), trimmed. -/
def extractPropertyValue (propertyCollection propertyName : List Char) : List Char :=
  let propertyMarker := propertyName ++ colonLit
  match firstIdx propertyCollection propertyMarker with
  | some propertyIndex =>
      let valueIndex := propertyIndex + propertyMarker.length
      match firstIdxFrom propertyCollection crLit valueIndex with
      | none => trimList (propertyCollection.drop valueIndex)
      | some lineBreakIndex => trimList ((propertyCollection.take lineBreakIndex).drop valueIndex)
  | none => []

/-- `isValidInteger`: every character is a decimal digit (vacuously true for
the empty string, exactly as in the source). -/
def isValidInteger (potentialInteger : List Char) : Bool :=
  potentialInteger.all Char.isDigit

def qLit : List Char := ("?").toList
def httpLit : List Char := ("HTTP").toList
def beginKey : List Char := ("irrigationBeginHours").toList
def durationKey : List Char := ("irrigationDurationHours").toList
def periodKey : List Char := ("mistPeriodMinutes").toList
def mistDurKey : List Char := ("mistDurationSeconds").toList

/-- `interpretScheduleRequest`: extract the query between `?` and `HTTP`,
then read the four schedule fields, each of which must pass
`isValidInteger`.  The C out-parameter plus `bool` result is modelled as an
`Option Schedule`. -/
def interpretScheduleRequest (request : List Char) : Option Schedule :=
  let beginQueryIndex := intIndexOf request qLit 0
  let endQueryIndex := intIndexOf request httpLit 0
  if beginQueryIndex ≠ -1 ∧ endQueryIndex ≠ -1 then
    let queryCollection := trimList (substringAU request (beginQueryIndex + 1) (endQueryIndex - 1))
    let irrigationBeginHoursStr := extractQueryValue queryCollection beginKey
    let irrigationDurationHoursStr := extractQueryValue queryCollection durationKey
    let mistPeriodMinutesStr := extractQueryValue queryCollection periodKey
    let mistDurationSecondsStr := extractQueryValue queryCollection mistDurKey
    if isValidInteger irrigationBeginHoursStr then
      if isValidInteger irrigationDurationHoursStr then
        if isValidInteger mistPeriodMinutesStr then
          if isValidInteger mistDurationSecondsStr then
            some
              { irrigationBeginHours := listToInt irrigationBeginHoursStr
                irrigationDurationHours := listToInt irrigationDurationHoursStr
                mistPeriodMinutes := listToInt mistPeriodMinutesStr
                mistDurationSeconds := listToInt mistDurationSecondsStr }
          else none
        else none
      else none
    else none
  else none

/-- `updateSchedule`: interpret, then range-validate; the new schedule is
produced only when both succeed. -/
def updateSchedule (request : List Char) : Option Schedule :=
  match interpretScheduleRequest request with
  | some schedule =>
      if (validateIrrigationSchedule schedule).1 then some schedule else none
  | none => none


/-! ## Response generation

The page generators are transcriptions of the corresponding `generate*`
functions; CSS braces are written with `\x7b`/`\x7d` escapes. -/

def httpHeader200 : List Char :=
  ("HTTP/1.1 200 OK\r\nContent-Type: text/html\r\nConnection: close\r\n\r\n").toList

def httpHeader404 : List Char :=
  ("HTTP/1.1 404 OK\r\nContent-Type: text/html\r\nConnection: close\r\n\r\n").toList

def htmlStyleBlock : List Char :=
  ("<style type=\"text/css\">.fieldset-auto-width \x7bdisplay: inline-block; \x7d.div-auto-width \x7bdisplay: inline-block; \x7d.force-right \x7btext-align: right;\x7dfieldset \x7btext-align: right;\x7dlegend \x7bfloat: left;\x7dinput \x7bmargin: 2px;\x7d</style>").toList

def htmlEndLit : List Char := ("</html>\r\n").toList

/-- `generateRedirectResponseToLogin`: the 302 redirect to `/login`. -/
def generateRedirectResponseToLogin : List Char :=
  ("HTTP/1.1 302 OK\r\nContent-Type: text/html\r\nConnection: close\r\nLocation: /login\r\n\r\n").toList

/-- `generateRedirectResponseToRoot`: 302 to `/` carrying the session
cookie. -/
def generateRedirectResponseToRoot (sessionId : List Char) : List Char :=
  ("HTTP/1.1 302 OK\r\nContent-Type: text/html\r\nConnection: close\r\nLocation: /\r\nSet-cookie: sessionId=").toList
    ++ sessionId ++ ("\r\n\r\n").toList

/-- `generateSchedule` with its four-item loop unrolled. -/
def generateSchedule (schedule : Schedule) : List Char :=
  ("<br>Schedule: ").toList
    ++ ("<br>").toList ++ ("&nbsp;Irrigation begin (hour): ").toList
    ++ intToStr schedule.irrigationBeginHours
    ++ ("<br>").toList ++ ("&nbsp;Irrigation duration (hours): ").toList
    ++ intToStr schedule.irrigationDurationHours
    ++ ("<br>").toList ++ ("&nbsp;Mist period (minutes): ").toList
    ++ intToStr schedule.mistPeriodMinutes
    ++ ("<br>").toList ++ ("&nbsp;Mist duration (seconds): ").toList
    ++ intToStr schedule.mistDurationSeconds

/-- One `label`/`input` row of the schedule or login form. -/
def formField (name label value : List Char) : List Char :=
  ("<label for=\"").toList ++ name ++ ("\">").toList ++ label
    ++ ("<input type=\"text\" name=\"").toList ++ name ++ ("\"").toList
    ++ (" value=\"").toList ++ value ++ ("\">").toList
    ++ ("</label>").toList ++ ("<br>").toList

/-- `generateForm` with its four-field loop unrolled. -/
def generateForm (schedule : Schedule) : List Char :=
  let htmlFields :=
    formField beginKey (("&nbsp;Irrigation begin (hour):&nbsp;").toList)
        (intToStr schedule.irrigationBeginHours)
      ++ formField durationKey (("&nbsp;Irrigation duration (hours):&nbsp;").toList)
        (intToStr schedule.irrigationDurationHours)
      ++ formField periodKey (("&nbsp;Mist period (minutes):&nbsp;").toList)
        (intToStr schedule.mistPeriodMinutes)
      ++ formField mistDurKey (("&nbsp;Mist duration (seconds):&nbsp;").toList)
        (intToStr schedule.mistDurationSeconds)
  let htmlFieldSet :=
    ("<fieldset class=\"fieldset-auto-width\">").toList ++ htmlFields ++ ("</fieldset>").toList
  let htmlSubmit :=
    ("<div class=\"force-right\"><input type=\"submit\" name=\"schedule\" value=\"Submit\"></div>").toList
  let htmlForm :=
    ("<br>Edit schedule: <br>").toList
      ++ ("<form name=\"SCHEDULE\" action=\"/\" method=\"get\">").toList
      ++ htmlFieldSet ++ htmlSubmit ++ ("</form>").toList
  ("<div class=\"div-auto-width\">").toList ++ htmlForm ++ ("</div>").toList

def userNameKey : List Char := ("userName").toList
def passwordKey : List Char := ("password").toList

/-- `generateLoginForm` with its two-field loop unrolled. -/
def generateLoginForm : List Char :=
  let htmlFields :=
    formField userNameKey (("&nbsp;User name:&nbsp;").toList) []
      ++ formField passwordKey (("&nbsp;Password:&nbsp;").toList) []
  let htmlFieldSet :=
    ("<fieldset class=\"fieldset-auto-width\">").toList ++ htmlFields ++ ("</fieldset>").toList
  let htmlSubmit :=
    ("<div class=\"force-right\"><input type=\"submit\" name=\"login\" value=\"Submit\"></div>").toList
  let htmlForm :=
    ("<br>Login: <br>").toList
      ++ ("<form name=\"LOGIN\" action=\"/authenticate\" method=\"post\">").toList
      ++ htmlFieldSet ++ htmlSubmit ++ ("</form>").toList
  ("<div class=\"div-auto-width\">").toList ++ htmlForm ++ ("</div>").toList

/-- `generateLoginResponse`. -/
def generateLoginResponse : List Char :=
  httpHeader200 ++ htmlStyleBlock
    ++ ("<!DOCTYPE HTML><html><head><title>Irrigation Control Authentication</title></head>").toList
    ++ generateLoginForm ++ htmlEndLit

/-- `generatePageNotFoundResponse`. -/
def generatePageNotFoundResponse : List Char :=
  httpHeader404 ++ htmlStyleBlock
    ++ ("<!DOCTYPE HTML><html><head><title>Page not found. </title></head>").toList
    ++ htmlEndLit

/-- `generateResponse`: the main control page. -/
def generateResponse (relayState : Bool) (automationStatus : Automation)
    (schedule : Schedule) : List Char :=
  let relayStateStr := if relayState then ("ON").toList else ("OFF").toList
  let htmlTitle := ("Manual water delivery is now: ").toList ++ relayStateStr
  let isShowingSchedule :=
    automationStatus = Automation.AUTO_START ∨ automationStatus = Automation.AUTO_RUN
  let htmlSchedule :=
    if isShowingSchedule then generateSchedule schedule else ("<br>Schedule inactive.").toList
  let htmlControl :=
    ("<br><br>Turn <a href=\"/RELAY=OFF\">OFF</a> water supply.<br>Turn <a href=\"/RELAY=ON\">ON</a> water supply.<br>Activate misting schedule <a href=\"/RELAY=AUTO_START\">AUTO</a>.<br>").toList
  httpHeader200 ++ htmlStyleBlock
    ++ ("<!DOCTYPE HTML><html><head><title>Irrigation Control</title></head>").toList
    ++ htmlTitle ++ htmlSchedule ++ htmlControl ++ generateForm schedule ++ htmlEndLit

/-! ## Request handling (`handleRequest`) and the control loop (`loop`) -/

/-- One inbound connection, as `handleRequest` consumes it: the request
line (`readStringUntil('\r')`), the subsequent raw header chunks, and the
first body line (`extractPostQuery`). -/
structure Browser where
  requestLine : List Char
  headerLines : List (List Char)
  bodyLine : List Char

/-- The external collaborators of the `/authenticate` flow: the `users.txt`
contents (`none` when the file cannot be opened), the PSA hash primitive
(success flag and digest string), and `createSessionId` (success flag and
resulting token). -/
structure CredEnv where
  usersFile : Option (List Char)
  hashOk : List Char → Bool
  hashVal : List Char → List Char
  sessionIdOk : Bool
  newSessionId : List Char

/-- Result of `handleRequest`: the returned automation status, the possibly
updated `relayState` reference, everything printed to the browser, and the
session repository after the call. -/
structure HandleResult where
  status : Automation
  relayState : Bool
  responses : List (List Char)
  sessionIdRepository : List Char
deriving DecidableEq, Repr

def getLit : List Char := ("GET").toList
def postLit : List Char := ("POST").toList
def relayOnTarget : List Char := ("/RELAY=ON").toList
def relayOffTarget : List Char := ("/RELAY=OFF").toList
def relayAutoStartTarget : List Char := ("/RELAY=AUTO_START").toList
def scheduleSubmitTarget : List Char := ("schedule=Submit").toList
def updateTarget : List Char := ("/update").toList
def loginTarget : List Char := ("/login").toList
def authenticateTarget : List Char := ("/authenticate").toList

/-- `handleRequest`.  The local `automationStatus` starts at `NULL_STATE`
and is returned; note that the unauthenticated branch never assigns it. -/
def handleRequest (env : CredEnv) (sessionIdRepository : List Char) (relayState : Bool)
    (currentSchedule : Schedule) (browser : Browser) : HandleResult :=
  let request := browser.requestLine
  if isAuthenticated (retrieveSessionId userNameKey sessionIdRepository)
      (extractCookie browser.headerLines []) then
    if intIndexOf request getLit 0 = 0 then
      let target := extractTarget request
      if target = relayOnTarget then
        { status := Automation.MANUAL_ACTIVE, relayState := true
          responses := [generateResponse true Automation.MANUAL_ACTIVE currentSchedule]
          sessionIdRepository := sessionIdRepository }
      else if target = relayOffTarget then
        { status := Automation.MANUAL_ACTIVE, relayState := false
          responses := [generateResponse false Automation.MANUAL_ACTIVE currentSchedule]
          sessionIdRepository := sessionIdRepository }
      else if target = relayAutoStartTarget then
        { status := Automation.AUTO_START, relayState := relayState
          responses := [generateResponse relayState Automation.AUTO_START currentSchedule]
          sessionIdRepository := sessionIdRepository }
      else if target = scheduleSubmitTarget then
        { status := Automation.AUTO_CONFIG, relayState := relayState
          responses := [generateResponse relayState Automation.AUTO_CONFIG currentSchedule]
          sessionIdRepository := sessionIdRepository }
      else
        { status := Automation.AUTO_RUN, relayState := relayState
          responses := [generateResponse relayState Automation.AUTO_RUN currentSchedule]
          sessionIdRepository := sessionIdRepository }
    else if intIndexOf request postLit 0 = 0 then
      let target := extractTarget request
      if target = updateTarget then
        { status := Automation.NULL_STATE, relayState := relayState
          responses := [], sessionIdRepository := sessionIdRepository }
      else
        { status := Automation.NULL_STATE, relayState := relayState
          responses := [generatePageNotFoundResponse]
          sessionIdRepository := sessionIdRepository }
    else
      { status := Automation.NULL_STATE, relayState := relayState
        responses := [], sessionIdRepository := sessionIdRepository }
  else
    let target := extractTarget request
    if target = loginTarget then
      { status := Automation.NULL_STATE, relayState := relayState
        responses := [generateLoginResponse], sessionIdRepository := sessionIdRepository }
    else if target = authenticateTarget then
      let body := trimList browser.bodyLine
      let userName := extractQueryValue body userNameKey
      let password := extractQueryValue body passwordKey
      match env.usersFile with
      | some fileContents =>
          let knownHash := extractPropertyValue fileContents userName
          if env.hashOk password then
            if knownHash = env.hashVal password then
              if env.sessionIdOk then
                { status := Automation.NULL_STATE, relayState := relayState
                  responses := [generateRedirectResponseToRoot env.newSessionId]
                  sessionIdRepository := storeSessionId userNameKey env.newSessionId }
              else
                { status := Automation.NULL_STATE, relayState := relayState
                  responses := [generateRedirectResponseToLogin]
                  sessionIdRepository := sessionIdRepository }
            else
              { status := Automation.NULL_STATE, relayState := relayState
                responses := [], sessionIdRepository := sessionIdRepository }
          else
            { status := Automation.NULL_STATE, relayState := relayState
              responses := [], sessionIdRepository := sessionIdRepository }
      | none =>
          { status := Automation.NULL_STATE, relayState := relayState
            responses := [], sessionIdRepository := sessionIdRepository }
    else
      { status := Automation.NULL_STATE, relayState := relayState
        responses := [generateRedirectResponseToLogin]
        sessionIdRepository := sessionIdRepository }

/-- The per-tick inputs of `loop` that come from outside the controller:
the waiting connection, the RTC reading, whether `writeConfigToFS`
succeeds, and the credential-service collaborators. -/
structure TickEnv where
  browser : Option Browser
  now : Time
  fsWriteOk : Bool
  cred : CredEnv

/-- The controller's mutable globals, as read and written by `loop`. -/
structure LoopState where
  automationStatus : Automation
  relayState : Bool
  currentSchedule : Schedule
  sched : SchedulerState
  sessionIdRepository : List Char
deriving DecidableEq, Repr

/-- Relay actuations (`switchRelay` calls) made during one tick. -/
def valveEvents : ValveCommand → List Bool
  | ValveCommand.On => [true]
  | ValveCommand.Off => [false]
  | ValveCommand.NoChange => []

/-- The request phase of one `loop` iteration: when a connection is
waiting, `handleRequest` runs and its results overwrite the global
`automationStatus`, `relayState` and session repository. -/
def requestPhase (env : TickEnv) (st : LoopState) : LoopState :=
  match env.browser with
  | some browser =>
      let r := handleRequest env.cred st.sessionIdRepository st.relayState
        st.currentSchedule browser
      { st with
          automationStatus := r.status
          relayState := r.relayState
          sessionIdRepository := r.sessionIdRepository }
  | none => st

/-- The `switch(automationStatus)` phase of one `loop` iteration.  The
returned list records the relay actuations (`mist`/`switchRelay` calls) of
this tick in order.  Note the `AUTO_CONFIG` branch passes the loop's own
`request` variable — which is never assigned, hence `[]` — to
`updateSchedule`, and the `default` label also catches `NULL_STATE`. -/
def switchPhase (env : TickEnv) (st1 : LoopState) : LoopState × List Bool :=
  match st1.automationStatus with
  | Automation.MANUAL_ACTIVE =>
      ({ st1 with automationStatus := Automation.MANUAL_INACTIVE }, [st1.relayState])
  | Automation.MANUAL_INACTIVE => (st1, [])
  | Automation.AUTO_CONFIG =>
      let request : List Char := []
      let st2 :=
        match updateSchedule request with
        | some schedule =>
            if env.fsWriteOk then
              { st1 with
                  currentSchedule := schedule
                  sched := initIrrigationSchedule schedule st1.sched }
            else st1
        | none => st1
      ({ st2 with automationStatus := Automation.AUTO_START }, [])
  | Automation.AUTO_START =>
      ({ st1 with automationStatus := Automation.AUTO_RUN }, [false])
  | _ =>
      match irrigate st1.currentSchedule env.now st1.sched with
      | (sched', cmd) => ({ st1 with sched := sched' }, valveEvents cmd)

/-- One full iteration of `loop`. -/
def loopStep (env : TickEnv) (st : LoopState) : LoopState × List Bool :=
  switchPhase env (requestPhase env st)

/-! ## Configuration persistence (`writeConfigToFS` / `readConfigFromFS`) -/

def ssidKey : List Char := ("SSID").toList
def lfLit : List Char := ("\n").toList
def crlfLit : List Char := ("\r\n").toList

/-- `defaultSsid` from the sketch. -/
def defaultSsid : List Char := ("NETGEAR87_EXT").toList

/-- `defaultPassword` from the sketch. -/
def defaultPassword : List Char := ("##########").toList

/-- `createPropertyValue`: one `name: value\r\n` line. -/
def createPropertyValue (nameStr valueStr : List Char) : List Char :=
  nameStr ++ colonLit ++ spaceStrLit ++ valueStr ++ crlfLit

/-- The `int` overload of `createPropertyValue`. -/
def createPropertyValueInt (nameStr : List Char) (valueInt : Int) : List Char :=
  createPropertyValue nameStr (intToStr valueInt)

/-- The `fileContents` string assembled by `writeConfigToFS`. -/
def writeConfigContents (ssid wifiPassword : List Char) (schedule : Schedule) : List Char :=
  createPropertyValue ssidKey ssid
    ++ createPropertyValue passwordKey wifiPassword
    ++ createPropertyValueInt beginKey schedule.irrigationBeginHours
    ++ createPropertyValueInt durationKey schedule.irrigationDurationHours
    ++ createPropertyValueInt periodKey schedule.mistPeriodMinutes
    ++ createPropertyValueInt mistDurKey schedule.mistDurationSeconds

/-- The schedule `readConfigFromFS` reconstructs from a configuration
file's contents (the four `extractPropertyValue` + `toInt` steps). -/
def readScheduleFromContents (fileContents : List Char) : Schedule :=
  { irrigationBeginHours := listToInt (extractPropertyValue fileContents beginKey)
    irrigationDurationHours := listToInt (extractPropertyValue fileContents durationKey)
    mistPeriodMinutes := listToInt (extractPropertyValue fileContents periodKey)
    mistDurationSeconds := listToInt (extractPropertyValue fileContents mistDurKey) }

/-- Concrete text preceding the first schedule value in the serialized
configuration (SSID line, password line, and the `irrigationBeginHours: `
header). -/
def cfgA : List Char :=
  createPropertyValue ssidKey defaultSsid ++ createPropertyValue passwordKey defaultPassword
    ++ beginKey ++ colonLit ++ spaceStrLit

/-- Concrete text between the first and second schedule values. -/
def cfgB : List Char := crLit ++ lfLit ++ durationKey ++ colonLit ++ spaceStrLit

/-- Concrete text between the second and third schedule values. -/
def cfgC : List Char := crLit ++ lfLit ++ periodKey ++ colonLit ++ spaceStrLit

def tailDur : List Char := crLit ++ lfLit ++ durationKey
def tailPer : List Char := crLit ++ lfLit ++ periodKey
def tailMist : List Char := crLit ++ lfLit ++ mistDurKey



/-! ## Concrete instances used by witnesses and counterexamples -/

/-- A credential environment in which every external collaborator fails;
used to instantiate concrete ticks. -/
def noCredEnv : CredEnv :=
  { usersFile := none, hashOk := fun _ => false, hashVal := fun _ => []
    sessionIdOk := false, newSessionId := [] }

/-- A concrete unauthenticated `GET /RELAY=ON` connection: no stored
session, a single blank header line, no body. -/
def relayOnBrowser : Browser :=
  { requestLine := ("GET /RELAY=ON HTTP/1.1").toList, headerLines := [[]], bodyLine := [] }

/-- A concrete root-page request. -/
def rootBrowser : Browser :=
  { requestLine := ("GET / HTTP/1.1").toList, headerLines := [[]], bodyLine := [] }

/-- A tick in which the unauthenticated `/RELAY=ON` connection arrives. -/
def c3TickEnv : TickEnv :=
  { browser := some relayOnBrowser, now := ⟨0, 0, 0⟩, fsWriteOk := false, cred := noCredEnv }

/-- A controller resting in `MANUAL_INACTIVE` with no live session. -/
def c3LoopState : LoopState :=
  { automationStatus := Automation.MANUAL_INACTIVE, relayState := false
    currentSchedule := defaultSchedule
    sched := ⟨⟨10, 14⟩, ⟨0, 5⟩, false⟩, sessionIdRepository := [] }

/-- A tick with no waiting connection. -/
def c8TickEnv : TickEnv :=
  { browser := none, now := ⟨0, 0, 0⟩, fsWriteOk := false, cred := noCredEnv }

/-- A controller entering `AUTO_START` while the previous-mist baseline is
still `true`. -/
def c8LoopState : LoopState :=
  { automationStatus := Automation.AUTO_START, relayState := false
    currentSchedule := defaultSchedule
    sched := ⟨⟨10, 14⟩, ⟨0, 5⟩, true⟩, sessionIdRepository := [] }

/-! ## Scheduler helper lemmas -/

/-- When the hour test fails, `irrigate` is a complete no-op. -/
theorem irrigate_of_not_irrigating (schedule : Schedule) (now : Time) (st : SchedulerState)
    (h : (st.waterToday.begin_ ≤ now.hour && now.hour < st.waterToday.end_) = false) :
    irrigate schedule now st = (st, ValveCommand.NoChange) := by
  simp [irrigate, h]

/-- Restatement of the previous lemma with the window bounds spelled out. -/
theorem irrigate_skip_of_hour_outside (schedule : Schedule) (now : Time) (st : SchedulerState)
    (h : now.hour < st.waterToday.begin_ ∨ st.waterToday.end_ ≤ now.hour) :
    irrigate schedule now st = (st, ValveCommand.NoChange) := by
  apply irrigate_of_not_irrigating
  rcases h with h | h <;>
    simp only [Bool.and_eq_false_iff, decide_eq_false_iff_not, not_le, not_lt] <;> omega

/-- Inside the window, the state after a tick carries the scan's misting
verdict as the new baseline (whether or not a transition fired). -/
theorem irrigate_result_of_irrigating (schedule : Schedule) (now : Time) (st : SchedulerState)
    (m : Bool) (b e : Int)
    (h : (st.waterToday.begin_ ≤ now.hour && now.hour < st.waterToday.end_) = true)
    (hs : scanMist (now.second + now.minute * 60) (schedule.mistPeriodMinutes * 60)
        (schedule.irrigationDurationHours * 60 * 60) 0 schedule.mistDurationSeconds
        ((schedule.irrigationDurationHours * 60 * 60 - schedule.mistDurationSeconds).toNat + 1)
        = (m, b, e)) :
    (irrigate schedule now st).1 = ⟨st.waterToday, ⟨b, e⟩, m⟩ := by
  simp only [irrigate, h, hs]
  cases hp : st.isPreviousMisting <;> cases m <;> simp

/-- A tick whose baseline already equals the scan verdict does not actuate
the valve. -/
theorem irrigate_nochange_of_prev_eq (schedule : Schedule) (now : Time) (st : SchedulerState)
    (m : Bool) (b e : Int)
    (h : (st.waterToday.begin_ ≤ now.hour && now.hour < st.waterToday.end_) = true)
    (hs : scanMist (now.second + now.minute * 60) (schedule.mistPeriodMinutes * 60)
        (schedule.irrigationDurationHours * 60 * 60) 0 schedule.mistDurationSeconds
        ((schedule.irrigationDurationHours * 60 * 60 - schedule.mistDurationSeconds).toNat + 1)
        = (m, b, e))
    (hp : st.isPreviousMisting = m) :
    (irrigate schedule now st).2 = ValveCommand.NoChange := by
  simp only [irrigate, h, hs, hp]
  cases m <;> simp

/-! ## Helper lemmas about `firstIdx` and `isAuthenticated` -/

/-- `firstIdx` finds something exactly when the needle occurs as a
contiguous substring. -/
theorem firstIdx_isSome_iff (hay needle : List Char) :
    (firstIdx hay needle).isSome = true ↔ needle <:+: hay := by
  induction hay with
  | nil =>
      by_cases h : needle <+: ([] : List Char)
      · simp [firstIdx, h, List.prefix_nil.mp h]
      · have : needle ≠ [] := fun he => h (he ▸ List.prefix_refl [])
        simp [firstIdx, h, List.infix_nil, this]
  | cons c t ih =>
      by_cases h : needle <+: (c :: t)
      · simp [firstIdx, h, h.isInfix]
      · simp [firstIdx, h, List.infix_cons_iff, ih]

/-- `indexOf` (from position 0) disagrees with `-1` exactly when the needle
occurs as a substring. -/
theorem intIndexOf_zero_ne_neg_one_iff (hay needle : List Char) :
    intIndexOf hay needle 0 ≠ -1 ↔ needle <:+: hay := by
  rw [← firstIdx_isSome_iff]
  unfold intIndexOf firstIdxFrom toUnsignedNat
  cases h : firstIdx hay needle with
  | some i => simp [h]
  | none => simp [h]


/-- Claim C1: `isAuthenticated` returns true iff the stored session token is
non-empty and the presented cookie contains it as a substring; in
particular the cookie header `foo=1; sessionId=abc123; bar=2` authenticates
against stored token `abc123`. -/
theorem c1_authenticate_substring_contract :
    (∀ sessionId cookie : List Char,
        isAuthenticated sessionId cookie = true ↔ sessionId ≠ [] ∧ sessionId <:+: cookie)
  ∧ isAuthenticated (("abc123").toList) (("foo=1; sessionId=abc123; bar=2").toList) = true := by
  constructor
  · intro sessionId cookie
    rw [isAuthenticated, Bool.and_eq_true, decide_eq_true_eq, decide_eq_true_eq,
      intIndexOf_zero_ne_neg_one_iff, gt_iff_lt, List.length_pos]
  · decide

/-- Empty session repository refuses every cookie (first half of C10). -/
theorem isAuthenticated_empty (cookie : List Char) :
    isAuthenticated [] cookie = false := by
  simp [isAuthenticated]

/-- Shared shape of the unauthenticated fall-through branch of
`handleRequest`: any target other than `/login` and `/authenticate` only
gets the login redirect. -/
theorem handleRequest_unauth_redirect (env : CredEnv) (sessionIdRepository : List Char)
    (relayState : Bool) (currentSchedule : Schedule) (browser : Browser)
    (hauth : isAuthenticated (retrieveSessionId userNameKey sessionIdRepository)
        (extractCookie browser.headerLines []) = false)
    (hlogin : extractTarget browser.requestLine ≠ loginTarget)
    (hauthT : extractTarget browser.requestLine ≠ authenticateTarget) :
    handleRequest env sessionIdRepository relayState currentSchedule browser =
      { status := Automation.NULL_STATE, relayState := relayState
        responses := [generateRedirectResponseToLogin]
        sessionIdRepository := sessionIdRepository } := by
  simp only [handleRequest, hauth, Bool.false_eq_true, if_false, hlogin, hauthT, if_neg]


/-! ## Claims about the scheduler (C2, C5, C7) -/

/-- Claim C2, amended: on a tick whose hour lies outside the irrigation
window, `irrigate` is a complete no-op — it emits no valve command and
leaves the previous-mist baseline unchanged (even when that baseline is
`true`; the `Off` edge claimed by the spec is never emitted there). -/
theorem c2_outside_window_noop (schedule : Schedule) (now : Time) (st : SchedulerState)
    (h : now.hour < st.waterToday.begin_ ∨ st.waterToday.end_ ≤ now.hour) :
    irrigate schedule now st = (st, ValveCommand.NoChange) :=
  irrigate_skip_of_hour_outside schedule now st h

theorem c2_witness :
    ((9 : Int) < 10 ∨ (14 : Int) ≤ 9) ∧
      irrigate defaultSchedule ⟨9, 0, 0⟩ ⟨⟨10, 14⟩, ⟨0, 5⟩, true⟩ =
        (⟨⟨10, 14⟩, ⟨0, 5⟩, true⟩, ValveCommand.NoChange) :=
  ⟨Or.inl (by decide), c2_outside_window_noop _ _ _ (Or.inl (by decide))⟩

/-- Claim C2 as stated is false: at 9:00:00, outside the default window
[10, 14), with the previous mist state `true`, the tick neither emits `Off`
nor clears the previous mist state. -/
theorem c2_counterexample :
    ¬ ((irrigate defaultSchedule ⟨9, 0, 0⟩ ⟨⟨10, 14⟩, ⟨0, 5⟩, true⟩).2 = ValveCommand.Off ∧
       (irrigate defaultSchedule ⟨9, 0, 0⟩ ⟨⟨10, 14⟩, ⟨0, 5⟩, true⟩).1.isPreviousMisting = false) := by
  decide

/-- Claim C5: with the default schedule {begin 10, duration 4, mist period
20 min, mist duration 5 s} (whose `initIrrigationSchedule` window is
[10, 14)), a tick at 10:00:03 from a non-misting baseline emits `On`, a
tick at 10:00:07 from a misting baseline emits `Off`, a tick at 10:20:02
from a non-misting baseline emits `On`, and no tick whose hour lies outside
[10, 14) ever emits `On`, whatever the `mistToday` scratch state. -/
theorem c5_tile_scan :
    (∀ st : SchedulerState,
        initIrrigationSchedule defaultSchedule st =
          { st with waterToday := ⟨10, 14⟩, isPreviousMisting := false })
  ∧ (∀ mt : MistEvent,
      (irrigate defaultSchedule ⟨10, 0, 3⟩ ⟨⟨10, 14⟩, mt, false⟩).2 = ValveCommand.On)
  ∧ (∀ mt : MistEvent,
      (irrigate defaultSchedule ⟨10, 0, 7⟩ ⟨⟨10, 14⟩, mt, true⟩).2 = ValveCommand.Off)
  ∧ (∀ mt : MistEvent,
      (irrigate defaultSchedule ⟨10, 20, 2⟩ ⟨⟨10, 14⟩, mt, false⟩).2 = ValveCommand.On)
  ∧ (∀ (h m s : Int) (mt : MistEvent) (prev : Bool), h < 10 ∨ 14 ≤ h →
      (irrigate defaultSchedule ⟨h, m, s⟩ ⟨⟨10, 14⟩, mt, prev⟩).2 ≠ ValveCommand.On) := by
  refine ⟨fun st => rfl, fun mt => rfl, fun mt => rfl, fun mt => rfl, ?_⟩
  intro h m s mt prev hout
  rw [irrigate_skip_of_hour_outside defaultSchedule ⟨h, m, s⟩ ⟨⟨10, 14⟩, mt, prev⟩ hout]
  simp

theorem c5_witness :
    ((9 : Int) < 10 ∨ (14 : Int) ≤ 9) ∧
      (irrigate defaultSchedule ⟨9, 30, 0⟩ ⟨⟨10, 14⟩, ⟨0, 5⟩, false⟩).2 ≠ ValveCommand.On :=
  ⟨Or.inl (by decide), c5_tile_scan.2.2.2.2 9 30 0 ⟨0, 5⟩ false (Or.inl (by decide))⟩

/-- Claim C7: a second tick with the identical (schedule, now) pair, taken
from the state the first tick produced, always yields `NoChange`. -/
theorem c7_tick_idempotent (schedule : Schedule) (now : Time) (st : SchedulerState) :
    (irrigate schedule now (irrigate schedule now st).1).2 = ValveCommand.NoChange := by
  by_cases h : (st.waterToday.begin_ ≤ now.hour && now.hour < st.waterToday.end_) = true
  · rcases hs : scanMist (now.second + now.minute * 60) (schedule.mistPeriodMinutes * 60)
        (schedule.irrigationDurationHours * 60 * 60) 0 schedule.mistDurationSeconds
        ((schedule.irrigationDurationHours * 60 * 60 - schedule.mistDurationSeconds).toNat + 1)
      with ⟨m, b, e⟩
    rw [irrigate_result_of_irrigating schedule now st m b e h hs]
    exact irrigate_nochange_of_prev_eq schedule now _ m b e h hs rfl
  · have hf : (st.waterToday.begin_ ≤ now.hour && now.hour < st.waterToday.end_) = false :=
      Bool.eq_false_iff.mpr h
    rw [irrigate_of_not_irrigating schedule now st hf,
      irrigate_of_not_irrigating schedule now st hf]

/-! ## Claims about the validator (C6) -/

/-- Claim C6, amended: `validateIrrigationSchedule` succeeds on every
schedule satisfying `0 ≤ b ∧ b + d < 24 ∧ 0 < d ∧ 0 < p < d*60 ∧ 0 < s < 60`
(the claim's formula alone is not sufficient: it omits `0 ≤ b`, see the
counterexample); it fails whenever any single one of its four clauses is
violated; and all four checks are evaluated rather than short-circuited —
each violated clause contributes its own diagnostic to the report,
whether or not an earlier clause already failed. -/
theorem c6_validate_ranges :
    (∀ s : Schedule,
        0 ≤ s.irrigationBeginHours →
        s.irrigationBeginHours + s.irrigationDurationHours < 24 →
        0 < s.irrigationDurationHours →
        0 < s.mistPeriodMinutes →
        s.mistPeriodMinutes < s.irrigationDurationHours * 60 →
        0 < s.mistDurationSeconds →
        s.mistDurationSeconds < 60 →
        (validateIrrigationSchedule s).1 = true)
  ∧ (∀ s : Schedule,
        (¬ (0 ≤ s.irrigationBeginHours ∧ s.irrigationBeginHours < 24)
          ∨ ¬ (0 < s.irrigationDurationHours ∧
                s.irrigationBeginHours + s.irrigationDurationHours < 24)
          ∨ ¬ (0 < s.mistPeriodMinutes ∧
                s.mistPeriodMinutes < s.irrigationDurationHours * 60)
          ∨ ¬ (0 < s.mistDurationSeconds ∧ s.mistDurationSeconds < 60)) →
        (validateIrrigationSchedule s).1 = false)
  ∧ (∀ s : Schedule,
        (ScheduleError.beginHoursRange ∈ (validateIrrigationSchedule s).2 ↔
          ¬ (0 ≤ s.irrigationBeginHours ∧ s.irrigationBeginHours < 24))
      ∧ (ScheduleError.durationHoursRange ∈ (validateIrrigationSchedule s).2 ↔
          ¬ (0 < s.irrigationDurationHours ∧
              s.irrigationBeginHours + s.irrigationDurationHours < 24))
      ∧ (ScheduleError.mistPeriodRange ∈ (validateIrrigationSchedule s).2 ↔
          ¬ (0 < s.mistPeriodMinutes ∧
              s.mistPeriodMinutes < s.irrigationDurationHours * 60))
      ∧ (ScheduleError.mistDurationRange ∈ (validateIrrigationSchedule s).2 ↔
          ¬ (0 < s.mistDurationSeconds ∧ s.mistDurationSeconds < 60))) := by
  refine ⟨?_, ?_, ?_⟩
  · intro s h0 h1 h2 h3 h4 h5 h6
    simp only [validateIrrigationSchedule, Bool.and_eq_true, decide_eq_true_eq]
    refine ⟨⟨⟨?_, ?_⟩, ?_, ?_⟩, ?_, ?_⟩ <;> omega
  · intro s h
    simp only [validateIrrigationSchedule, Bool.and_eq_false_iff, decide_eq_false_iff_not]
    tauto
  · intro s
    simp only [validateIrrigationSchedule]
    split_ifs with h1 h2 h3 h4 <;>
      simp_all [decide_eq_true_eq, List.mem_append]

theorem c6_witness :
    (validateIrrigationSchedule defaultSchedule).1 = true :=
  c6_validate_ranges.1 defaultSchedule (by decide) (by decide) (by decide) (by decide)
    (by decide) (by decide) (by decide)

/-- Claim C6 as stated is false: the schedule (-1, 1, 30, 5) satisfies the
claim's formula `b+d<24 ∧ d>0 ∧ 0<p<d*60 ∧ 0<s<60`, yet
`validateIrrigationSchedule` rejects it (its first clause also requires
`0 ≤ b`, which the formula does not guarantee). -/
theorem c6_counterexample :
    ((-1 : Int) + 1 < 24 ∧ (0 : Int) < 1 ∧ ((0 : Int) < 30 ∧ (30 : Int) < 1 * 60) ∧
        ((0 : Int) < 5 ∧ (5 : Int) < 60)) ∧
      (validateIrrigationSchedule ⟨-1, 1, 30, 5⟩).1 = false := by
  decide

/-- Claim C3, amended: an unauthenticated request for `/RELAY=ON` leaves
`relayState` and the session repository unchanged and produces only the 302
redirect to `/login`, but `handleRequest` returns `NULL_STATE` (it does not
preserve the previous automation state). -/
theorem c3_unauth_relay_on (env : CredEnv) (sessionIdRepository : List Char)
    (relayState : Bool) (currentSchedule : Schedule) (browser : Browser)
    (hauth : isAuthenticated (retrieveSessionId userNameKey sessionIdRepository)
        (extractCookie browser.headerLines []) = false)
    (htarget : extractTarget browser.requestLine = relayOnTarget) :
    handleRequest env sessionIdRepository relayState currentSchedule browser =
      { status := Automation.NULL_STATE, relayState := relayState
        responses := [generateRedirectResponseToLogin]
        sessionIdRepository := sessionIdRepository } := by
  apply handleRequest_unauth_redirect env sessionIdRepository relayState currentSchedule
    browser hauth
  · rw [htarget]; decide
  · rw [htarget]; decide

theorem c3_witness :
    isAuthenticated (retrieveSessionId userNameKey []) (extractCookie relayOnBrowser.headerLines []) = false ∧
    extractTarget relayOnBrowser.requestLine = relayOnTarget ∧
    handleRequest noCredEnv [] false defaultSchedule relayOnBrowser =
      { status := Automation.NULL_STATE, relayState := false
        responses := [generateRedirectResponseToLogin]
        sessionIdRepository := [] } :=
  ⟨by decide, by decide,
    c3_unauth_relay_on noCredEnv [] false defaultSchedule relayOnBrowser (by decide) (by decide)⟩

/-- Claim C3 as stated is false: the unauthenticated `/RELAY=ON` request is
answered only with the login redirect, yet the tick does not leave the
AutomationState unchanged — `handleRequest` returns `NULL_STATE`, which
overwrites the previous `MANUAL_INACTIVE`. -/
theorem c3_counterexample :
    isAuthenticated (retrieveSessionId userNameKey c3LoopState.sessionIdRepository)
        (extractCookie relayOnBrowser.headerLines []) = false ∧
      extractTarget relayOnBrowser.requestLine = relayOnTarget ∧
      ¬ ((loopStep c3TickEnv c3LoopState).1.automationStatus = c3LoopState.automationStatus) := by
  decide

/-- Claim C10: with an empty stored session repository (as at boot, before
any successful `/authenticate`), `isAuthenticated` rejects every cookie, so
every target other than `/login` and `/authenticate` only gets the login
redirect, with `relayState` and repository untouched. -/
theorem c10_empty_session_locked :
    (∀ cookie : List Char, isAuthenticated [] cookie = false)
  ∧ (∀ (env : CredEnv) (relayState : Bool) (currentSchedule : Schedule) (browser : Browser),
      extractTarget browser.requestLine ≠ loginTarget →
      extractTarget browser.requestLine ≠ authenticateTarget →
      handleRequest env [] relayState currentSchedule browser =
        { status := Automation.NULL_STATE, relayState := relayState
          responses := [generateRedirectResponseToLogin]
          sessionIdRepository := [] }) := by
  refine ⟨isAuthenticated_empty, ?_⟩
  intro env relayState currentSchedule browser hlogin hauthT
  exact handleRequest_unauth_redirect env [] relayState currentSchedule browser
    (isAuthenticated_empty _) hlogin hauthT

theorem c10_witness :
    extractTarget rootBrowser.requestLine ≠ loginTarget ∧
    extractTarget rootBrowser.requestLine ≠ authenticateTarget ∧
    handleRequest noCredEnv [] true defaultSchedule rootBrowser =
      { status := Automation.NULL_STATE, relayState := true
        responses := [generateRedirectResponseToLogin]
        sessionIdRepository := [] } :=
  ⟨by decide, by decide,
    c10_empty_session_locked.2 noCredEnv true defaultSchedule rootBrowser (by decide) (by decide)⟩


/-- The request phase never touches `currentSchedule`. -/
theorem requestPhase_currentSchedule (env : TickEnv) (st : LoopState) :
    (requestPhase env st).currentSchedule = st.currentSchedule := by
  unfold requestPhase
  cases env.browser <;> rfl

/-- The automation switch never touches `currentSchedule`: the only branch
that could (`AUTO_CONFIG`) calls `updateSchedule` on the loop's never
assigned, empty `request` string, which fails to find a query. -/
theorem switchPhase_currentSchedule (env : TickEnv) (st1 : LoopState) :
    (switchPhase env st1).1.currentSchedule = st1.currentSchedule := by
  unfold switchPhase
  cases h : st1.automationStatus <;> rfl

/-- Claim C4: after setup, no control-loop iteration ever modifies the live
schedule: `interpretScheduleRequest` finds no query in the loop's empty
`request` string, `updateSchedule` therefore fails, and every `loopStep`
leaves `currentSchedule` exactly as it was. -/
theorem c4_schedule_never_updated :
    interpretScheduleRequest [] = none
  ∧ updateSchedule [] = none
  ∧ ∀ (env : TickEnv) (st : LoopState),
      (loopStep env st).1.currentSchedule = st.currentSchedule := by
  refine ⟨rfl, rfl, ?_⟩
  intro env st
  rw [loopStep, switchPhase_currentSchedule, requestPhase_currentSchedule]

/-- Claim C8, amended: a tick taken in `AUTO_START` actuates the valve
closed (`mist(false)`) and moves to `AUTO_RUN`, leaving everything else —
including the scheduler's previous-mist baseline — unchanged. -/
theorem c8_auto_start_tick (env : TickEnv) (st : LoopState)
    (hb : env.browser = none) (hs : st.automationStatus = Automation.AUTO_START) :
    loopStep env st = ({ st with automationStatus := Automation.AUTO_RUN }, [false]) := by
  rw [loopStep]
  have h1 : requestPhase env st = st := by rw [requestPhase, hb]
  rw [h1, switchPhase, hs]


/-- Claim C8 as stated is false: the `AUTO_START` tick closes the valve and
moves to `AUTO_RUN`, but it does not reset the scheduler's previous-mist
baseline — `isPreviousMisting` stays `true`. -/
theorem c8_counterexample :
    (loopStep c8TickEnv c8LoopState).2 = [false] ∧
      (loopStep c8TickEnv c8LoopState).1.automationStatus = Automation.AUTO_RUN ∧
      ¬ ((loopStep c8TickEnv c8LoopState).1.sched.isPreviousMisting = false) := by
  decide

theorem c8_witness :
    c8TickEnv.browser = none ∧
    c8LoopState.automationStatus = Automation.AUTO_START ∧
    loopStep c8TickEnv c8LoopState =
      ({ c8LoopState with automationStatus := Automation.AUTO_RUN }, [false]) :=
  ⟨rfl, rfl, c8_auto_start_tick c8TickEnv c8LoopState rfl rfl⟩



/-! ## List occurrence lemmas for the round-trip claim -/

theorem prefix_of_append_of_length_le {m a b : List Char} (h : m <+: a ++ b)
    (hl : m.length ≤ a.length) : m <+: a := by
  rw [List.prefix_iff_eq_take] at h ⊢
  rw [List.take_append_of_le_length hl] at h
  exact h

theorem suffix_append_of_length_le {m a b : List Char} (h : m <:+ a ++ b)
    (hl : m.length ≤ b.length) : m <:+ b := by
  rw [← List.reverse_prefix] at h ⊢
  rw [List.reverse_append] at h
  exact prefix_of_append_of_length_le h (by simpa using hl)

theorem span_through_append (l X B ds : List Char)
    (h : l <:+ X ++ (ds ++ B)) (hl : l.length ≤ B.length) : l <:+ B :=
  suffix_append_of_length_le
    (suffix_append_of_length_le h (by simp; omega)) hl

theorem firstIdx_of_prefix (hay needle : List Char) (h : needle <+: hay) :
    firstIdx hay needle = some 0 := by
  cases hay <;> simp [firstIdx, h]

theorem firstIdx_cons_of_not_prefix (c : Char) (t needle : List Char)
    (h : ¬ needle <+: c :: t) :
    firstIdx (c :: t) needle = (firstIdx t needle).map (· + 1) := by
  simp [firstIdx, h]

/-- The first occurrence of `m` in `pre ++ m ++ post` is at `pre.length`,
provided `m` does not occur in `pre ++ m.dropLast` (the earliest region
any other occurrence could live in). -/
theorem firstIdx_append_self (pre post m : List Char) (hm : m ≠ [])
    (h : ¬ m <:+: (pre ++ m.dropLast)) :
    firstIdx (pre ++ (m ++ post)) m = some pre.length := by
  induction pre with
  | nil => simpa using firstIdx_of_prefix (m ++ post) m (List.prefix_append m post)
  | cons c t ih =>
      have hkey : c :: (t ++ (m ++ post)) =
          (c :: (t ++ m.dropLast)) ++ ([m.getLast hm] ++ post) := by
        have : m.dropLast ++ [m.getLast hm] = m := List.dropLast_append_getLast hm
        calc c :: (t ++ (m ++ post))
            = c :: (t ++ ((m.dropLast ++ [m.getLast hm]) ++ post)) := by rw [this]
          _ = (c :: (t ++ m.dropLast)) ++ ([m.getLast hm] ++ post) := by simp
      have hnp : ¬ m <+: c :: (t ++ (m ++ post)) := by
        intro hp
        rw [hkey] at hp
        have hl : m.length ≤ (c :: (t ++ m.dropLast)).length := by
          have hm1 : 1 ≤ m.length := List.length_pos.mpr hm
          simp [List.length_dropLast]
          omega
        exact h ((prefix_of_append_of_length_le hp hl).isInfix)
      have h' : ¬ m <:+: (t ++ m.dropLast) := fun hin => h (List.infix_cons hin)
      rw [List.cons_append, firstIdx_cons_of_not_prefix c _ m hnp, ih h']
      rfl

/-- Decomposition of an infix occurrence across an append: the occurrence
lies inside `a`, inside `b`, or splits into a nonempty suffix of `a`
followed by a prefix of `b`. -/
theorem infix_append_cases {m a b : List Char} (h : m <:+: a ++ b) :
    m <:+: a ∨ m <:+: b ∨
      ∃ k, 0 < k ∧ k < m.length ∧ m.take k <:+ a ∧ m.drop k <+: b := by
  obtain ⟨s, t, hst⟩ := h
  have hmt : m ++ t = (a ++ b).drop s.length := by
    rw [← hst, List.append_assoc, List.drop_left]
  by_cases h1 : s.length + m.length ≤ a.length
  · left
    have hsa : s.length ≤ a.length := by omega
    rw [List.drop_append_of_le_length hsa] at hmt
    have hm : m <+: a.drop s.length := by
      have hp : m <+: a.drop s.length ++ b := ⟨t, hmt⟩
      exact prefix_of_append_of_length_le hp (by simp; omega)
    exact hm.isInfix.trans (List.drop_suffix _ _).isInfix
  · by_cases h2 : a.length ≤ s.length
    · right; left
      have hb : (a ++ b).drop s.length = b.drop (s.length - a.length) := by
        have h3 : s.length = a.length + (s.length - a.length) := by omega
        conv_lhs => rw [h3]
        rw [List.drop_append]
      rw [hb] at hmt
      have hm : m <+: b.drop (s.length - a.length) := ⟨t, hmt⟩
      exact hm.isInfix.trans (List.drop_suffix _ _).isInfix
    · right; right
      push_neg at h2
      have hsa : s.length ≤ a.length := by omega
      rw [List.drop_append_of_le_length hsa] at hmt
      have hlen : (a.drop s.length).length = a.length - s.length := by simp
      refine ⟨a.length - s.length, by omega, by omega, ?_, ?_⟩
      · have ht := congrArg (List.take (a.drop s.length).length) hmt
        rw [List.take_append_of_le_length (by rw [hlen]; omega), List.take_left] at ht
        rw [show a.length - s.length = (a.drop s.length).length from hlen.symm, ht]
        exact List.drop_suffix _ _
      · have hd := congrArg (List.drop (a.drop s.length).length) hmt
        rw [List.drop_append_of_le_length (by rw [hlen]; omega), List.drop_left] at hd
        rw [show a.length - s.length = (a.drop s.length).length from hlen.symm]
        exact ⟨t, hd⟩


/-- A needle whose head is not a digit cannot occur in `A ++ ds ++ B` when
`ds` is all digits and the needle occurs neither in `A` nor `B` nor as a
split with a nonempty prefix ending in `A`. -/
theorem not_infix_digit_seg {m A ds B : List Char} (c0 : Char)
    (hh : m.head? = some c0) (hc0 : c0.isDigit = false)
    (hds : ∀ c ∈ ds, c.isDigit = true)
    (hA : ¬ m <:+: A) (hB : ¬ m <:+: B)
    (hspan : ∀ k, k < m.length → 0 < k → ¬ m.take k <:+ A) :
    ¬ m <:+: A ++ (ds ++ B) := by
  intro h
  have hc0m : c0 ∈ m := List.mem_of_mem_head? (Option.mem_def.mpr hh)
  rcases infix_append_cases h with h | h | ⟨k, hk0, hkm, hkA, hkB⟩
  · exact hA h
  · rcases infix_append_cases h with h | h | ⟨k, hk0, hkm, hkds, hkB⟩
    · rw [hds c0 (h.subset hc0m)] at hc0
      simp at hc0
    · exact hB h
    · have hc0tk : c0 ∈ m.take k := by
        cases m with
        | nil => simp at hh
        | cons x xs =>
            have hx : x = c0 := by simpa using hh
            cases k with
            | zero => omega
            | succ k' => rw [List.take_succ_cons, hx]; exact List.mem_cons_self _ _
      rw [hds c0 (hkds.subset hc0tk)] at hc0
      simp at hc0
  · exact hspan k hkm hk0 hkA


/-- Extend a non-occurrence certificate across one more `digits ++ concrete`
segment, propagating the split condition as well. -/
theorem not_infix_grow (m X ds B : List Char) (c0 : Char)
    (hh : m.head? = some c0) (hc0 : c0.isDigit = false)
    (hds : ∀ c ∈ ds, c.isDigit = true)
    (hX : ¬ m <:+: X)
    (hXspan : ∀ k, k < m.length → 0 < k → ¬ m.take k <:+ X)
    (hB : ¬ m <:+: B)
    (hBspan : ∀ k, k < m.length → 0 < k → ¬ m.take k <:+ B)
    (hlen : m.length ≤ B.length + 1) :
    ¬ m <:+: (X ++ (ds ++ B)) ∧
      (∀ k, k < m.length → 0 < k → ¬ m.take k <:+ (X ++ (ds ++ B))) := by
  constructor
  · exact not_infix_digit_seg c0 hh hc0 hds hX hB hXspan
  · intro k hk hk0 hsf
    have hlk : (m.take k).length ≤ B.length := by
      rw [List.length_take]
      omega
    exact hBspan k hk hk0 (span_through_append _ _ _ _ hsf hlk)

/-! ## Decimal digit strings -/

theorem digitCh_facts : ∀ d, d < 10 → (digitCh d).isDigit = true ∧ (digitCh d).toNat = 48 + d := by
  decide

theorem natToStr_all_digit (n : Nat) : ∀ c ∈ natToStr n, c.isDigit = true := by
  intro c hc
  unfold natToStr at hc
  split at hc
  · rcases List.mem_singleton.mp hc with rfl
    decide
  · rw [List.mem_map] at hc
    obtain ⟨d, hd, rfl⟩ := hc
    exact (digitCh_facts d (Nat.digits_lt_base (by norm_num) (List.mem_reverse.mp hd))).1

theorem natToStr_ne_nil (n : Nat) : natToStr n ≠ [] := by
  unfold natToStr
  split
  · simp
  · simp only [ne_eq, List.map_eq_nil_iff, List.reverse_eq_nil_iff]
    exact Nat.digits_ne_nil_iff_ne_zero.mpr (by assumption)

theorem parseNat_digits (ds : List Nat) (h : ∀ d ∈ ds, d < 10) (acc : Nat) :
    parseNat (ds.map digitCh) acc = ds.foldl (fun a d => a * 10 + d) acc := by
  induction ds generalizing acc with
  | nil => rfl
  | cons d tl ih =>
      have hd := digitCh_facts d (h d (List.mem_cons_self d tl))
      simp only [List.map_cons, parseNat, hd.1, if_true, hd.2, List.foldl_cons,
        Nat.add_sub_cancel_left]
      exact ih (fun x hx => h x (List.mem_cons_of_mem _ hx)) _

theorem foldl_digits_reverse (ds : List Nat) (acc : Nat) :
    (ds.reverse).foldl (fun a d => a * 10 + d) acc =
      acc * 10 ^ ds.length + Nat.ofDigits 10 ds := by
  induction ds generalizing acc with
  | nil => simp
  | cons d tl ih =>
      simp only [List.reverse_cons, List.foldl_append, ih, List.foldl_cons, List.foldl_nil,
        Nat.ofDigits_cons, List.length_cons]
      ring

theorem parseNat_natToStr (n : Nat) : parseNat (natToStr n) 0 = n := by
  unfold natToStr
  split
  · rename_i h0
    subst h0
    decide
  · have hlt : ∀ d ∈ (Nat.digits 10 n).reverse, d < 10 :=
      fun d hd => Nat.digits_lt_base (by norm_num) (List.mem_reverse.mp hd)
    rw [parseNat_digits _ hlt 0, foldl_digits_reverse]
    simp [Nat.ofDigits_digits]

theorem listToInt_natToStr (n : Nat) : listToInt (natToStr n) = (n : Int) := by
  unfold listToInt
  rw [if_neg, parseNat_natToStr]
  intro hh
  have hc : ('-') ∈ natToStr n := List.mem_of_mem_head? (Option.mem_def.mpr hh)
  have := natToStr_all_digit n _ hc
  exact absurd this (by decide)

theorem isDigit_not_ws (c : Char) (h : c.isDigit = true) : isWSCh c = false := by
  by_contra hws
  have hws' : isWSCh c = true := by simpa using hws
  simp only [isWSCh, Bool.or_eq_true, decide_eq_true_eq] at hws'
  rcases hws' with ((((h1 | h1) | h1) | h1) | h1) | h1 <;> subst h1 <;> exact absurd h (by decide)

theorem isDigit_ne_cr (c : Char) (h : c.isDigit = true) : c ≠ ('\r') := by
  intro he
  subst he
  exact absurd h (by decide)

theorem intToStr_of_nonneg (v : Int) (h : 0 ≤ v) : intToStr v = natToStr v.toNat := by
  unfold intToStr
  rw [if_neg (by omega)]


/-! ## Trimming, character search, and slicing -/

theorem dropWhile_eq_self_of_head (l : List Char) (p : Char → Bool)
    (h : ∀ c, l.head? = some c → p c = false) : l.dropWhile p = l := by
  cases l with
  | nil => rfl
  | cons x xs =>
      rw [List.dropWhile_cons, h x rfl]
      simp

theorem trimList_space_digits (ds : List Char) (hne : ds ≠ [])
    (hds : ∀ c ∈ ds, c.isDigit = true) : trimList ((' ') :: ds) = ds := by
  have hhead : ∀ c, ds.head? = some c → isWSCh c = false := fun c hc =>
    isDigit_not_ws c (hds c (List.mem_of_mem_head? (Option.mem_def.mpr hc)))
  have hrev : ∀ c, ds.reverse.head? = some c → isWSCh c = false := fun c hc =>
    isDigit_not_ws c
      (hds c (List.mem_reverse.mp (List.mem_of_mem_head? (Option.mem_def.mpr hc))))
  unfold trimList
  rw [List.dropWhile_cons, show isWSCh (' ') = true from by decide, if_pos rfl,
    dropWhile_eq_self_of_head ds isWSCh hhead,
    dropWhile_eq_self_of_head ds.reverse isWSCh hrev, List.reverse_reverse]

theorem firstIdx_char_append (a rest : List Char) (ch : Char) (ha : ∀ c ∈ a, c ≠ ch) :
    firstIdx (a ++ ch :: rest) [ch] = some a.length := by
  induction a with
  | nil => exact firstIdx_of_prefix _ _ (by simp)
  | cons c t ih =>
      have hnp : ¬ [ch] <+: c :: (t ++ ch :: rest) := by
        rw [List.cons_prefix_cons]
        rintro ⟨rfl, -⟩
        exact ha ch (List.mem_cons_self _ _) rfl
      rw [List.cons_append, firstIdx_cons_of_not_prefix c _ _ hnp,
        ih (fun x hx => ha x (List.mem_cons_of_mem _ hx))]
      rfl

theorem slice_of_append (a b : List Char) (n : Nat) :
    ((a ++ b).take (a.length + n)).drop a.length = b.take n := by
  rw [List.take_append_eq_append_take, List.take_of_length_le (by omega),
    Nat.add_sub_cancel_left, List.drop_left]

/-! ## Extraction from a serialized property line -/

/-- Reading a property whose serialized line sits at a known split point:
if the marker `key ++ ":"` does not occur earlier, `extractPropertyValue`
returns exactly the (all-digit) value written after `": "`. -/
theorem extractPropertyValue_of_split (contents pre key post ds : List Char)
    (hsplit : contents = pre ++ ((key ++ colonLit) ++
      (spaceStrLit ++ (ds ++ (crLit ++ post)))))
    (hne : key ++ colonLit ≠ [])
    (hni : ¬ (key ++ colonLit) <:+: (pre ++ (key ++ colonLit).dropLast))
    (hds : ∀ c ∈ ds, c.isDigit = true)
    (hdne : ds ≠ []) :
    extractPropertyValue contents key = ds := by
  have h1 : firstIdx contents (key ++ colonLit) = some pre.length := by
    rw [hsplit]
    exact firstIdx_append_self pre _ _ hne hni
  have hassoc : contents = (pre ++ (key ++ colonLit)) ++
      ((' ') :: (ds ++ ('\r') :: post)) := by
    rw [hsplit]
    simp [spaceStrLit, crLit]
  have hdrop : contents.drop (pre.length + (key ++ colonLit).length) =
      (' ') :: (ds ++ ('\r') :: post) := by
    rw [hassoc, ← List.length_append, List.drop_left]
  have h2 : firstIdx (contents.drop (pre.length + (key ++ colonLit).length)) crLit =
      some (ds.length + 1) := by
    rw [hdrop]
    have hsh : (' ') :: (ds ++ ('\r') :: post) = ((' ') :: ds) ++ ('\r') :: post := by
      simp
    rw [hsh]
    have hnc : ∀ c ∈ (' ') :: ds, c ≠ ('\r') := by
      intro c hc
      rcases List.mem_cons.mp hc with rfl | hc
      · decide
      · exact isDigit_ne_cr c (hds c hc)
    rw [show crLit = [('\r')] from rfl, firstIdx_char_append ((' ') :: ds) post ('\r') hnc]
    simp [Nat.add_comm]
  have hslice : (contents.take ((ds.length + 1) + (pre.length + (key ++ colonLit).length))).drop
      (pre.length + (key ++ colonLit).length) = (' ') :: ds := by
    rw [hassoc, ← List.length_append]
    rw [show ds.length + 1 + (pre ++ (key ++ colonLit)).length =
      (pre ++ (key ++ colonLit)).length + (ds.length + 1) from by omega]
    rw [slice_of_append]
    rw [show ((' ') :: (ds ++ ('\r') :: post)) = ((' ') :: ds) ++ ('\r') :: post from by simp]
    rw [List.take_append_of_le_length (by simp), List.take_of_length_le (by simp)]
  simp only [extractPropertyValue, h1, firstIdxFrom, h2, Option.map_some']
  rw [hslice]
  exact trimList_space_digits ds hdne hds

theorem crlfLit_eq : crlfLit = crLit ++ lfLit := rfl

theorem dropLast_key_colon (key : List Char) : (key ++ colonLit).dropLast = key := by
  rw [show colonLit = [(':')] from rfl]
  exact List.dropLast_concat

/-- The `irrigationDurationHours:` marker does not occur before its own
line in the serialized configuration. -/
theorem m4_not_occurs (ds3 : List Char) (h3 : ∀ c ∈ ds3, c.isDigit = true) :
    ¬ (durationKey ++ colonLit) <:+: (cfgA ++ (ds3 ++ tailDur)) :=
  not_infix_digit_seg ('i') (by decide) (by decide) h3 (by decide) (by decide)
    (by decide)

/-- The `mistPeriodMinutes:` marker does not occur before its own line. -/
theorem m5_not_occurs (ds3 ds4 : List Char)
    (h3 : ∀ c ∈ ds3, c.isDigit = true) (h4 : ∀ c ∈ ds4, c.isDigit = true) :
    ¬ (periodKey ++ colonLit) <:+: ((cfgA ++ (ds3 ++ cfgB)) ++ (ds4 ++ tailPer)) := by
  have lvl1 := not_infix_grow (periodKey ++ colonLit) cfgA ds3 cfgB ('m')
    (by decide) (by decide) h3 (by decide) (by decide) (by decide) (by decide) (by decide)
  exact not_infix_digit_seg ('m') (by decide) (by decide) h4 lvl1.1 (by decide) lvl1.2

/-- The `mistDurationSeconds:` marker does not occur before its own line. -/
theorem m6_not_occurs (ds3 ds4 ds5 : List Char)
    (h3 : ∀ c ∈ ds3, c.isDigit = true) (h4 : ∀ c ∈ ds4, c.isDigit = true)
    (h5 : ∀ c ∈ ds5, c.isDigit = true) :
    ¬ (mistDurKey ++ colonLit) <:+:
      (((cfgA ++ (ds3 ++ cfgB)) ++ (ds4 ++ cfgC)) ++ (ds5 ++ tailMist)) := by
  have lvl1 := not_infix_grow (mistDurKey ++ colonLit) cfgA ds3 cfgB ('m')
    (by decide) (by decide) h3 (by decide) (by decide) (by decide) (by decide) (by decide)
  have lvl2 := not_infix_grow (mistDurKey ++ colonLit) (cfgA ++ (ds3 ++ cfgB)) ds4 cfgC ('m')
    (by decide) (by decide) h4 lvl1.1 lvl1.2 (by decide) (by decide) (by decide)
  exact not_infix_digit_seg ('m') (by decide) (by decide) h5 lvl2.1 (by decide) lvl2.2


theorem extract_field3 (sc : Schedule) (h0 : 0 ≤ sc.irrigationBeginHours) :
    extractPropertyValue (writeConfigContents defaultSsid defaultPassword sc) beginKey
      = natToStr sc.irrigationBeginHours.toNat := by
  apply extractPropertyValue_of_split _
    (createPropertyValue ssidKey defaultSsid ++ createPropertyValue passwordKey defaultPassword)
    beginKey
    (lfLit ++ (createPropertyValueInt durationKey sc.irrigationDurationHours
      ++ createPropertyValueInt periodKey sc.mistPeriodMinutes
      ++ createPropertyValueInt mistDurKey sc.mistDurationSeconds))
    (natToStr sc.irrigationBeginHours.toNat)
  · simp only [writeConfigContents, createPropertyValue, createPropertyValueInt,
      intToStr_of_nonneg _ h0, crlfLit_eq, List.append_assoc]
  · decide
  · rw [dropLast_key_colon]
    decide
  · exact natToStr_all_digit _
  · exact natToStr_ne_nil _

theorem extract_field4 (sc : Schedule) (h0 : 0 ≤ sc.irrigationBeginHours)
    (h1 : 0 ≤ sc.irrigationDurationHours) :
    extractPropertyValue (writeConfigContents defaultSsid defaultPassword sc) durationKey
      = natToStr sc.irrigationDurationHours.toNat := by
  apply extractPropertyValue_of_split _
    (createPropertyValue ssidKey defaultSsid ++ createPropertyValue passwordKey defaultPassword
      ++ createPropertyValueInt beginKey sc.irrigationBeginHours)
    durationKey
    (lfLit ++ (createPropertyValueInt periodKey sc.mistPeriodMinutes
      ++ createPropertyValueInt mistDurKey sc.mistDurationSeconds))
    (natToStr sc.irrigationDurationHours.toNat)
  · simp only [writeConfigContents, createPropertyValue, createPropertyValueInt,
      intToStr_of_nonneg _ h1, crlfLit_eq, List.append_assoc]
  · decide
  · rw [dropLast_key_colon]
    have hshape : createPropertyValue ssidKey defaultSsid
        ++ createPropertyValue passwordKey defaultPassword
        ++ createPropertyValueInt beginKey sc.irrigationBeginHours ++ durationKey =
        cfgA ++ (natToStr sc.irrigationBeginHours.toNat ++ tailDur) := by
      simp only [cfgA, tailDur, createPropertyValue, createPropertyValueInt,
        intToStr_of_nonneg _ h0, crlfLit_eq, List.append_assoc]
    rw [hshape]
    exact m4_not_occurs _ (natToStr_all_digit _)
  · exact natToStr_all_digit _
  · exact natToStr_ne_nil _

theorem extract_field5 (sc : Schedule) (h0 : 0 ≤ sc.irrigationBeginHours)
    (h1 : 0 ≤ sc.irrigationDurationHours) (h2 : 0 ≤ sc.mistPeriodMinutes) :
    extractPropertyValue (writeConfigContents defaultSsid defaultPassword sc) periodKey
      = natToStr sc.mistPeriodMinutes.toNat := by
  apply extractPropertyValue_of_split _
    (createPropertyValue ssidKey defaultSsid ++ createPropertyValue passwordKey defaultPassword
      ++ createPropertyValueInt beginKey sc.irrigationBeginHours
      ++ createPropertyValueInt durationKey sc.irrigationDurationHours)
    periodKey
    (lfLit ++ createPropertyValueInt mistDurKey sc.mistDurationSeconds)
    (natToStr sc.mistPeriodMinutes.toNat)
  · simp only [writeConfigContents, createPropertyValue, createPropertyValueInt,
      intToStr_of_nonneg _ h2, crlfLit_eq, List.append_assoc]
  · decide
  · rw [dropLast_key_colon]
    have hshape : createPropertyValue ssidKey defaultSsid
        ++ createPropertyValue passwordKey defaultPassword
        ++ createPropertyValueInt beginKey sc.irrigationBeginHours
        ++ createPropertyValueInt durationKey sc.irrigationDurationHours ++ periodKey =
        (cfgA ++ (natToStr sc.irrigationBeginHours.toNat ++ cfgB))
          ++ (natToStr sc.irrigationDurationHours.toNat ++ tailPer) := by
      simp only [cfgA, cfgB, tailPer, createPropertyValue, createPropertyValueInt,
        intToStr_of_nonneg _ h0, intToStr_of_nonneg _ h1, crlfLit_eq, List.append_assoc]
    rw [hshape]
    exact m5_not_occurs _ _ (natToStr_all_digit _) (natToStr_all_digit _)
  · exact natToStr_all_digit _
  · exact natToStr_ne_nil _

theorem extract_field6 (sc : Schedule) (h0 : 0 ≤ sc.irrigationBeginHours)
    (h1 : 0 ≤ sc.irrigationDurationHours) (h2 : 0 ≤ sc.mistPeriodMinutes)
    (h3 : 0 ≤ sc.mistDurationSeconds) :
    extractPropertyValue (writeConfigContents defaultSsid defaultPassword sc) mistDurKey
      = natToStr sc.mistDurationSeconds.toNat := by
  apply extractPropertyValue_of_split _
    (createPropertyValue ssidKey defaultSsid ++ createPropertyValue passwordKey defaultPassword
      ++ createPropertyValueInt beginKey sc.irrigationBeginHours
      ++ createPropertyValueInt durationKey sc.irrigationDurationHours
      ++ createPropertyValueInt periodKey sc.mistPeriodMinutes)
    mistDurKey
    lfLit
    (natToStr sc.mistDurationSeconds.toNat)
  · simp only [writeConfigContents, createPropertyValue, createPropertyValueInt,
      intToStr_of_nonneg _ h3, crlfLit_eq, List.append_assoc]
  · decide
  · rw [dropLast_key_colon]
    have hshape : createPropertyValue ssidKey defaultSsid
        ++ createPropertyValue passwordKey defaultPassword
        ++ createPropertyValueInt beginKey sc.irrigationBeginHours
        ++ createPropertyValueInt durationKey sc.irrigationDurationHours
        ++ createPropertyValueInt periodKey sc.mistPeriodMinutes ++ mistDurKey =
        ((cfgA ++ (natToStr sc.irrigationBeginHours.toNat ++ cfgB))
          ++ (natToStr sc.irrigationDurationHours.toNat ++ cfgC))
          ++ (natToStr sc.mistPeriodMinutes.toNat ++ tailMist) := by
      simp only [cfgA, cfgB, cfgC, tailMist, createPropertyValue, createPropertyValueInt,
        intToStr_of_nonneg _ h0, intToStr_of_nonneg _ h1, intToStr_of_nonneg _ h2,
        crlfLit_eq, List.append_assoc]
    rw [hshape]
    exact m6_not_occurs _ _ _ (natToStr_all_digit _) (natToStr_all_digit _)
      (natToStr_all_digit _)
  · exact natToStr_all_digit _
  · exact natToStr_ne_nil _

/-- Claim C9: serializing a validated schedule with `writeConfigToFS`'s
text format (with the sketch's default SSID and password) and parsing the
text back with `readConfigFromFS`'s extraction yields the identical four
field values. -/
theorem c9_config_roundtrip (sc : Schedule)
    (hv : (validateIrrigationSchedule sc).1 = true) :
    readScheduleFromContents (writeConfigContents defaultSsid defaultPassword sc) = sc := by
  simp only [validateIrrigationSchedule, Bool.and_eq_true, decide_eq_true_eq] at hv
  obtain ⟨⟨⟨⟨hb0, hb1⟩, hd0, hd1⟩, hp0, hp1⟩, hs0, hs1⟩ := hv
  have h0 : 0 ≤ sc.irrigationBeginHours := hb0
  have h1 : 0 ≤ sc.irrigationDurationHours := le_of_lt hd0
  have h2 : 0 ≤ sc.mistPeriodMinutes := le_of_lt hp0
  have h3 : 0 ≤ sc.mistDurationSeconds := le_of_lt hs0
  rw [readScheduleFromContents, extract_field3 sc h0, extract_field4 sc h0 h1,
    extract_field5 sc h0 h1 h2, extract_field6 sc h0 h1 h2 h3,
    listToInt_natToStr, listToInt_natToStr, listToInt_natToStr, listToInt_natToStr]
  rw [Int.toNat_of_nonneg h0, Int.toNat_of_nonneg h1, Int.toNat_of_nonneg h2,
    Int.toNat_of_nonneg h3]

theorem c9_witness :
    (validateIrrigationSchedule defaultSchedule).1 = true ∧
      readScheduleFromContents (writeConfigContents defaultSsid defaultPassword defaultSchedule)
        = defaultSchedule :=
  ⟨by decide, c9_config_roundtrip defaultSchedule (by decide)⟩


end IrrigationCore
